import Mathlib

/-!
# Velocitats — verification of the sensor-fusion and alerting pipeline

Shallow embedding of the Velocitats web application (sensor abstraction
layer, kinematic state aggregator, braking detector, audio alert engine,
and the synthetic sensor simulator) into Lean 4, with theorems settling
the specification claims about it.

Numbers are modelled as exact rationals (ℚ); JavaScript timestamps
(`Date.now()` milliseconds) as integers.  JavaScript's `%` operator is a
truncating remainder (sign of the dividend), `Math.round` rounds half
toward +∞, and `x || 0` substitutes 0 for `null`/`undefined` values,
all of which are modelled explicitly below.
-/

set_option autoImplicit false

/-- Truncation toward zero, the rounding used by JavaScript's `%`. -/
def jsTrunc (q : ℚ) : ℤ := if 0 ≤ q then ⌊q⌋ else ⌈q⌉

/-- JavaScript remainder `a % b`: `a - b * trunc (a / b)`. -/
def jsRem (a b : ℚ) : ℚ := a - b * (jsTrunc (a / b) : ℚ)

/-- JavaScript `Math.round`: half-way cases round toward +∞. -/
def jsRound (q : ℚ) : ℤ := ⌊q + 1/2⌋

/-- The angle-normalization idiom used throughout the code:
`((a % 360) + 360) % 360`. -/
def normalizeDeg (a : ℚ) : ℚ := jsRem (jsRem a 360 + 360) 360

lemma jsRem_lt {a b : ℚ} (hb : 0 < b) : jsRem a b < b := by
  have hb' : b ≠ 0 := ne_of_gt hb
  unfold jsRem jsTrunc
  split
  · have h1 : a / b < (⌊a / b⌋ : ℚ) + 1 := Int.lt_floor_add_one _
    have h2 : b * (a / b) < b * ((⌊a / b⌋ : ℚ) + 1) := by
      exact (mul_lt_mul_left hb).mpr h1
    rw [mul_div_cancel₀ a hb'] at h2
    nlinarith
  · have h1 : a / b ≤ (⌈a / b⌉ : ℚ) := Int.le_ceil _
    have h2 : b * (a / b) ≤ b * (⌈a / b⌉ : ℚ) := by
      exact (mul_le_mul_left hb).mpr h1
    rw [mul_div_cancel₀ a hb'] at h2
    nlinarith

lemma neg_lt_jsRem {a b : ℚ} (hb : 0 < b) : -b < jsRem a b := by
  have hb' : b ≠ 0 := ne_of_gt hb
  unfold jsRem jsTrunc
  split
  · have h1 : ((⌊a / b⌋ : ℚ)) ≤ a / b := Int.floor_le _
    have h2 : b * ((⌊a / b⌋ : ℚ)) ≤ b * (a / b) := by
      exact (mul_le_mul_left hb).mpr h1
    rw [mul_div_cancel₀ a hb'] at h2
    nlinarith
  · have h1 : ((⌈a / b⌉ : ℚ)) < a / b + 1 := Int.ceil_lt_add_one _
    have h2 : b * ((⌈a / b⌉ : ℚ)) < b * (a / b + 1) := by
      exact (mul_lt_mul_left hb).mpr h1
    rw [mul_add, mul_div_cancel₀ a hb'] at h2
    nlinarith

lemma jsRem_nonneg {a b : ℚ} (hb : 0 < b) (ha : 0 ≤ a) : 0 ≤ jsRem a b := by
  have hb' : b ≠ 0 := ne_of_gt hb
  have hq : 0 ≤ a / b := div_nonneg ha (le_of_lt hb)
  unfold jsRem jsTrunc
  rw [if_pos hq]
  have h1 : ((⌊a / b⌋ : ℚ)) ≤ a / b := Int.floor_le _
  have h2 : b * ((⌊a / b⌋ : ℚ)) ≤ b * (a / b) := by
    exact (mul_le_mul_left hb).mpr h1
  rw [mul_div_cancel₀ a hb'] at h2
  linarith

lemma jsRem_eq_sub_intMul (a b : ℚ) : ∃ k : ℤ, jsRem a b = a - b * k :=
  ⟨jsTrunc (a / b), rfl⟩

lemma normalizeDeg_nonneg (a : ℚ) : 0 ≤ normalizeDeg a := by
  unfold normalizeDeg
  have h360 : (0 : ℚ) < 360 := by norm_num
  have h1 : -360 < jsRem a 360 := neg_lt_jsRem h360
  exact jsRem_nonneg h360 (by linarith)

lemma normalizeDeg_lt (a : ℚ) : normalizeDeg a < 360 := by
  unfold normalizeDeg
  exact jsRem_lt (by norm_num)

lemma normalizeDeg_congr (a : ℚ) : ∃ k : ℤ, normalizeDeg a = a + 360 * k := by
  obtain ⟨k1, h1⟩ := jsRem_eq_sub_intMul a 360
  obtain ⟨k2, h2⟩ := jsRem_eq_sub_intMul (jsRem a 360 + 360) 360
  refine ⟨1 - k1 - k2, ?_⟩
  unfold normalizeDeg
  rw [h2, h1]
  push_cast
  ring

/-! ## Audio Alert Engine (`js/audio.js`)

The engine's observable control state: whether `unlock()` has succeeded,
the timestamp (`Date.now()` ms) of the last successful beep start, and the
debounce interval.  The Web-Audio oscillator plumbing inside the success
branch has no effect on this control state and is not modelled; the
`!this.audioContext` guard is subsumed by `isUnlocked`, since `unlock()`
sets both together. -/

structure AudioEngine where
  isUnlocked : Bool
  lastBeepTime : ℤ
  debounceMs : ℤ
  deriving DecidableEq, Repr

/-- The engine state produced by the constructor (before any `unlock()`). -/
def AudioEngine.init : AudioEngine :=
  { isUnlocked := false, lastBeepTime := 0, debounceMs := 1000 }

/-- `playBeep(frequency, duration, type)` at wall-clock time `now`:
returns the boolean result and the (possibly updated) engine state.
Frequency/duration/waveshape do not affect the control flow modelled. -/
def playBeep (e : AudioEngine) (now : ℤ) : Bool × AudioEngine :=
  if e.isUnlocked = false then (false, e)
  else if now - e.lastBeepTime < e.debounceMs then (false, e)
  else (true, { e with lastBeepTime := now })

/-- `playBrakeAlert()` is `playBeep(880, 150, 'sine')`: same control flow. -/
def playBrakeAlert (e : AudioEngine) (now : ℤ) : Bool × AudioEngine :=
  playBeep e now

/-! ## Sample shapes (§3 of the spec, as produced by the sensor layer)

`Option ℚ` models JavaScript fields that may be `null`/`undefined`;
`JsFloat` models a number that may be non-finite (NaN or ±Infinity),
which `isFinite` distinguishes from ordinary values. -/

/-- A JavaScript number: either a finite value or a non-finite one
(NaN / ±Infinity), which is all `isFinite` distinguishes. -/
inductive JsFloat where
  | fin (q : ℚ)
  | nonfinite
  deriving DecidableEq, Repr

structure PositionSample where
  latitude : ℚ
  longitude : ℚ
  speed : Option ℚ
  bearing : Option ℚ
  accuracy : ℚ
  timestamp : ℤ
  deriving DecidableEq, Repr

structure OrientationSample where
  azimuth : JsFloat
  beta : ℚ
  gamma : ℚ
  deriving DecidableEq, Repr

structure MotionSample where
  x : ℚ
  y : ℚ
  z : ℚ
  magnitude : ℚ
  forward : ℚ
  deriving DecidableEq, Repr

/-! ## Kinematic State Aggregator and Braking Detector (`app.js`)

`AppState` is the mutable state of the `VelocitatsApp` orchestrator that
the sample handlers touch: the threshold settings, the aggregated
kinematic fields (`currentSpeed`, `currentBearing`, `currentAzimuth`,
`currentAcceleration`), the braking flag, and the DOM-backed display
values the GPS handler writes (latitude/longitude text, rounded bearing
label).  Handlers are pure state transformers; DOM/audio side effects are
returned as explicit effect records. -/

structure AppState where
  speedThreshold : ℚ
  brakeThreshold : ℚ
  currentSpeed : ℚ
  currentBearing : ℚ
  currentAzimuth : ℚ
  currentAcceleration : ℚ
  isBraking : Bool
  dispLatitude : ℚ
  dispLongitude : ℚ
  dispBearing : ℤ
  deriving DecidableEq, Repr

/-- Side effects of `checkBraking`: a `playBrakeAlert()` request and
visibility changes of the brake indicator element. -/
structure BrakeEffects where
  alertRequested : Bool
  indicatorShown : Bool
  indicatorHidden : Bool
  deriving DecidableEq, Repr

def BrakeEffects.none : BrakeEffects :=
  { alertRequested := false, indicatorShown := false, indicatorHidden := false }

/-- `checkBraking(forwardAccel)`: the two-state braking detector. -/
def checkBraking (s : AppState) (forwardAccel : ℚ) : AppState × BrakeEffects :=
  if s.speedThreshold < s.currentSpeed ∧ forwardAccel < s.brakeThreshold then
    if s.isBraking = false then
      ({ s with isBraking := true },
       { alertRequested := true, indicatorShown := true, indicatorHidden := false })
    else (s, BrakeEffects.none)
  else
    if s.isBraking = true then
      ({ s with isBraking := false },
       { alertRequested := false, indicatorShown := false, indicatorHidden := true })
    else (s, BrakeEffects.none)

/-- `handleGpsUpdate(data)`: `data.speed || 0` and `data.bearing || 0`
(`null` becomes 0), the bearing text label only updated when the sample
carries a bearing, latitude/longitude display updated unconditionally. -/
def handleGpsUpdate (s : AppState) (d : PositionSample) : AppState :=
  { s with
    currentSpeed := d.speed.getD 0,
    currentBearing := d.bearing.getD 0,
    dispBearing := match d.bearing with
                   | some b => jsRound b
                   | none => s.dispBearing,
    dispLatitude := d.latitude,
    dispLongitude := d.longitude }

/-- `handleOrientationUpdate(data)`: drops the sample when the azimuth is
non-finite, otherwise stores the normalized azimuth. -/
def handleOrientationUpdate (s : AppState) (d : OrientationSample) : AppState :=
  match d.azimuth with
  | JsFloat.nonfinite => s
  | JsFloat.fin a => { s with currentAzimuth := normalizeDeg a }

/-- `handleMotionUpdate(data)`: stores the forward acceleration and runs
the braking detector on it. -/
def handleMotionUpdate (s : AppState) (d : MotionSample) : AppState × BrakeEffects :=
  checkBraking { s with currentAcceleration := d.forward } d.forward

/-- North-pointer rotation passed to the renderer: `-azimuth`. -/
def northRotation (s : AppState) : ℚ := -s.currentAzimuth

/-- Velocity-pointer rotation from `updateVelocityArrow`:
`normalize(currentBearing - currentAzimuth)`. -/
def velocityRotation (s : AppState) : ℚ :=
  normalizeDeg (s.currentBearing - s.currentAzimuth)

/-- Velocity-pointer length from `updateVelocityArrow`:
`minLength + (maxLength - minLength) * min(speed / maxSpeed, 1)` with
`minLength = 35`, `maxLength = 70`, `maxSpeed = 30`. -/
def arrowLength (speed : ℚ) : ℚ :=
  35 + (70 - 35) * min (speed / 30) 1

/-! ## Sensor abstraction layer (`sensors.js`, class `SensorManager`)

Subscription bookkeeping: a GPS watch handle, and whether the
`deviceorientation`/`devicemotion` window listeners are registered.
A sample is delivered to the registered callback exactly while the
corresponding subscription is active. -/

structure SensorManager where
  gpsWatchId : Option ℕ
  orientationListenerActive : Bool
  motionListenerActive : Bool
  deriving DecidableEq, Repr

def SensorManager.init : SensorManager :=
  { gpsWatchId := none, orientationListenerActive := false,
    motionListenerActive := false }

/-- `startGps()` registers a `watchPosition` watch and keeps its id. -/
def SensorManager.startGps (m : SensorManager) (id : ℕ) : SensorManager :=
  { m with gpsWatchId := some id }

/-- `startOrientation()` adds a window orientation-event listener. -/
def SensorManager.startOrientation (m : SensorManager) : SensorManager :=
  { m with orientationListenerActive := true }

/-- `startMotion()` adds a window `devicemotion` listener. -/
def SensorManager.startMotion (m : SensorManager) : SensorManager :=
  { m with motionListenerActive := true }

/-- `stop()`: clears the GPS watch (if any) and nothing else — the
orientation and motion listeners are left registered. -/
def SensorManager.stop (m : SensorManager) : SensorManager :=
  { m with gpsWatchId := none }

/-- The live GPS callback builds `lastPosition` with
`coords.speed || 0` and `coords.heading || 0`. -/
def buildLivePosition (lat lon : ℚ) (speed heading : Option ℚ)
    (accuracy : ℚ) (timestamp : ℤ) : PositionSample :=
  { latitude := lat, longitude := lon, speed := some (speed.getD 0),
    bearing := some (heading.getD 0), accuracy := accuracy,
    timestamp := timestamp }

/-- `bearingToCardinal(bearing)`: indexes the 9-entry direction table by
`Math.round(bearing / 45)`; an index outside the table yields
JavaScript `undefined`, modelled as `none`. -/
def bearingToCardinal (bearing : ℚ) : Option String :=
  if jsRound (bearing / 45) < 0 then none
  else ["N", "NE", "E", "SE", "S", "SW", "W", "NW", "N"].get? (jsRound (bearing / 45)).toNat

/-! ## Synthetic Sensor Source (`simulator.js`, class `SensorSimulator`)

The scenario state machine runs on a fixed-step 30 Hz clock.  The cruise
state samples `Math.sin` of the simulated time and `Math.random()`, and
`updatePosition` uses spherical trigonometry; those transcendental and
random real values cannot be represented exactly in ℚ, so each tick
consumes a `TickOracle` supplying them as environment inputs.  The
speed/scenario/scenarioTime logic — the subject of the claims — is exact
and oracle-independent outside the cruise dwell decisions. -/

/-- Environment inputs consumed by one simulator tick: the three
`Math.sin` samples of the cruise state, the two `Math.random()` draws of
its dwell/branch decisions, and the latitude/longitude displacement
computed by `updatePosition`'s spherical-earth formula. -/
structure TickOracle where
  sinAccel : ℚ
  sinBearing : ℚ
  sinAzimuth : ℚ
  randDwell : ℚ
  randBranch : ℚ
  dLat : ℚ
  dLng : ℚ
  deriving DecidableEq, Repr

/-- The all-zero environment (a legitimate instance: `Math.sin` can be 0
and `Math.random()` can return 0). -/
def TickOracle.zero : TickOracle :=
  { sinAccel := 0, sinBearing := 0, sinAzimuth := 0,
    randDwell := 0, randBranch := 0, dLat := 0, dLng := 0 }

inductive Scenario where
  | cruise
  | accelerate
  | brake
  | stop
  deriving DecidableEq, Repr

structure SimState where
  time : ℚ
  latitude : ℚ
  longitude : ℚ
  speed : ℚ
  bearing : ℚ
  azimuth : ℚ
  acceleration : ℚ
  scenario : Scenario
  scenarioTime : ℚ
  deriving DecidableEq, Repr

/-- The `SensorSimulator` constructor state (Barcelona, at rest, cruise). -/
def SimState.init : SimState :=
  { time := 0, latitude := 41.3851, longitude := 2.1734, speed := 0,
    bearing := 0, azimuth := 0, acceleration := 0,
    scenario := Scenario.cruise, scenarioTime := 0 }

/-- `updateScenario()`: the scenario state machine, followed by the
bearing/azimuth wrap into [0,360). -/
def updateScenario (s : SimState) (o : TickOracle) : SimState :=
  let s1 :=
    match s.scenario with
    | Scenario.accelerate =>
      let s' := { s with speed := min (s.speed + 0.5) 15, acceleration := 2.5 }
      if 5 < s'.scenarioTime then
        { s' with scenario := Scenario.cruise, scenarioTime := 0 }
      else s'
    | Scenario.cruise =>
      let s' := { s with acceleration := o.sinAccel * 0.5,
                         bearing := s.bearing + o.sinBearing * 0.5,
                         azimuth := s.azimuth + o.sinAzimuth * 0.3 }
      if 8 + o.randDwell * 4 < s'.scenarioTime then
        if (0.3 : ℚ) < o.randBranch then
          { s' with scenario := Scenario.brake, scenarioTime := 0 }
        else
          { s' with scenario := Scenario.accelerate, scenarioTime := 0 }
      else s'
    | Scenario.brake =>
      let s' := { s with speed := max (s.speed - 2.5) 0, acceleration := -7 }
      if 2 < s'.scenarioTime ∨ s'.speed ≤ 0 then
        { s' with
          scenario := if s'.speed ≤ 0 then Scenario.stop else Scenario.cruise,
          scenarioTime := 0 }
      else s'
    | Scenario.stop =>
      let s' := { s with speed := 0, acceleration := 0 }
      if 3 < s'.scenarioTime then
        { s' with scenario := Scenario.accelerate, scenarioTime := 0 }
      else s'
  { s1 with bearing := normalizeDeg s1.bearing,
            azimuth := normalizeDeg s1.azimuth }

/-- `updatePosition()`: advances latitude/longitude while moving; the
spherical-earth displacement itself is supplied by the oracle. -/
def updatePosition (s : SimState) (o : TickOracle) : SimState :=
  if s.speed ≤ 0 then s
  else { s with latitude := s.latitude + o.dLat,
                longitude := s.longitude + o.dLng }

/-- `tick()`: advance both clocks by 1/30 s, run the scenario machine,
then advance the position. -/
def tick (s : SimState) (o : TickOracle) : SimState :=
  let s0 := { s with time := s.time + 1/30, scenarioTime := s.scenarioTime + 1/30 }
  updatePosition (updateScenario s0 o) o

/-- Iterated ticks, consuming one oracle entry per tick. -/
def ticks (s : SimState) (os : List TickOracle) : SimState :=
  os.foldl tick s

/-- Timer bookkeeping of `start()`/`stop()` on the simulator: the
`setInterval` handle, cleared synchronously by `stop()`. -/
structure SimControl where
  isRunning : Bool
  intervalId : Option ℕ
  deriving DecidableEq, Repr

def SimControl.init : SimControl := { isRunning := false, intervalId := none }

/-- Simulator `start()`: idempotent; registers the 30 Hz interval. -/
def SimControl.start (c : SimControl) (id : ℕ) : SimControl :=
  if c.isRunning then c else { isRunning := true, intervalId := some id }

/-- Simulator `stop()`: clears the interval and the running flag. -/
def SimControl.stop (c : SimControl) : SimControl :=
  { c with isRunning := false, intervalId := none }

/-- The scenario machine started in `accelerate` with speed 0 (the
configuration named by the specification's test). -/
def accelStart : SimState :=
  { SimState.init with scenario := Scenario.accelerate }

/-! ## Supporting lemmas -/

lemma normalizeDeg_zero : normalizeDeg 0 = 0 := by
  norm_num [normalizeDeg, jsRem, jsTrunc]

/-- Closed form of the simulator state after `n` ticks spent in the
`accelerate` phase (valid while the 5-second dwell has not elapsed). -/
def accelState (n : ℕ) : SimState :=
  { time := (n : ℚ)/30, latitude := 41.3851, longitude := 2.1734,
    speed := min ((n : ℚ)/2) 15, bearing := 0, azimuth := 0,
    acceleration := 2.5, scenario := Scenario.accelerate,
    scenarioTime := (n : ℚ)/30 }

lemma ticks_replicate_succ (s : SimState) (o : TickOracle) (n : ℕ) :
    ticks s (List.replicate (n+1) o) = tick (ticks s (List.replicate n o)) o := by
  simp [ticks, List.replicate_succ', List.foldl_append]

lemma min_speed_step (n : ℕ) :
    min (min ((n : ℚ)/2) 15 + 0.5) 15 = min (((n : ℚ) + 1)/2) 15 := by
  have h05 : (0.5 : ℚ) = 1/2 := by norm_num
  rcases le_total ((n : ℚ)/2) 15 with h | h
  · rw [min_eq_left h]
    congr 1
    rw [h05]
    ring
  · have h2 : (15 : ℚ) ≤ ((n : ℚ) + 1)/2 := by linarith
    have h3 : (15 : ℚ) ≤ 15 + 0.5 := by norm_num
    rw [min_eq_right h, min_eq_right h2, min_eq_right h3]

lemma tick_accelState (n : ℕ) (hn : n + 1 ≤ 150) :
    tick (accelState n) TickOracle.zero = accelState (n + 1) := by
  have hcast : ((n : ℚ) + 1) ≤ 150 := by exact_mod_cast hn
  have hcond : ¬ (5 < (n : ℚ)/30 + 1/30) := by intro h; linarith
  have hpos : ¬ (min (((n : ℚ) + 1)/2) 15 ≤ 0) := by
    have h1 : (0 : ℚ) < min (((n : ℚ) + 1)/2) 15 := lt_min (by positivity) (by norm_num)
    linarith
  unfold tick updateScenario updatePosition accelState
  simp only [TickOracle.zero, mul_zero, add_zero]
  rw [if_neg hcond, min_speed_step, if_neg hpos]
  simp only [normalizeDeg_zero, SimState.mk.injEq, true_and, and_true]
  push_cast
  and_intros <;> first | rfl | ring

lemma accel_phase : ∀ n : ℕ, 1 ≤ n → n ≤ 150 →
    ticks accelStart (List.replicate n TickOracle.zero) = accelState n := by
  intro n
  induction n with
  | zero => intro h; omega
  | succ m ih =>
    intro _ hle
    cases Nat.eq_zero_or_pos m with
    | inl h0 =>
      subst h0
      rw [ticks_replicate_succ]
      simp only [List.replicate, ticks, List.foldl_nil]
      unfold tick accelStart SimState.init updateScenario updatePosition accelState
      simp only [TickOracle.zero]
      norm_num [normalizeDeg_zero]
    | inr hpos =>
      rw [ticks_replicate_succ, ih hpos (by omega), tick_accelState m hle]

lemma accel_151 :
    (ticks accelStart (List.replicate 151 TickOracle.zero)).scenario = Scenario.cruise ∧
    (ticks accelStart (List.replicate 151 TickOracle.zero)).speed = 15 := by
  have e : (151 : ℕ) = 150 + 1 := rfl
  rw [e, ticks_replicate_succ, accel_phase 150 (by norm_num) (by norm_num)]
  unfold tick updateScenario updatePosition accelState
  norm_num [min_def]

lemma accel_150 :
    (ticks accelStart (List.replicate 150 TickOracle.zero)).scenario = Scenario.accelerate ∧
    (ticks accelStart (List.replicate 150 TickOracle.zero)).speed = 15 := by
  rw [accel_phase 150 (by norm_num) (by norm_num)]
  norm_num [accelState, min_def]

lemma tick_speed_bounds (s : SimState) (o : TickOracle)
    (h0 : 0 ≤ s.speed) (h15 : s.speed ≤ 15) :
    0 ≤ (tick s o).speed ∧ (tick s o).speed ≤ 15 := by
  obtain ⟨t, la, lo, sp, be, az, ac, sc, st⟩ := s
  simp only [] at h0 h15
  unfold tick updateScenario updatePosition
  cases sc <;>
    (simp only []
     split_ifs <;> constructor <;>
       first
         | exact le_max_right _ _
         | exact min_le_right _ _
         | (apply le_min <;> linarith)
         | (apply max_le <;> linarith)
         | linarith)

lemma ticks_speed_bounds (os : List TickOracle) :
    ∀ s : SimState, 0 ≤ s.speed → s.speed ≤ 15 →
      0 ≤ (ticks s os).speed ∧ (ticks s os).speed ≤ 15 := by
  induction os with
  | nil => intro s h0 h15; exact ⟨h0, h15⟩
  | cons o rest ih =>
    intro s h0 h15
    have h := tick_speed_bounds s o h0 h15
    exact ih (tick s o) h.1 h.2

/-- Demo configuration of the braking detector test: thresholds 0.5 and
−2.0, current speed 5 m/s, not braking. -/
def brakeDemo : AppState :=
  { speedThreshold := 0.5, brakeThreshold := -2, currentSpeed := 5,
    currentBearing := 0, currentAzimuth := 0, currentAcceleration := 0,
    isBraking := false, dispLatitude := 0, dispLongitude := 0, dispBearing := 0 }

/-- Claim C1: the braking detector is a two-state machine over
NORMAL (`isBraking = false`) and BRAKING (`isBraking = true`): on each
motion sample the new state is BRAKING exactly when
`currentSpeed > speedThreshold` and `forwardAccel < brakeThreshold`,
and NORMAL otherwise; the audio brake alert is requested and the
indicator made visible precisely on the NORMAL→BRAKING transition, and
the indicator is hidden precisely on the BRAKING→NORMAL transition.
With thresholds 0.5 and −2.0 and speed 5, feeding forwardAccel −3.0 from
NORMAL transitions to BRAKING, and subsequently feeding forwardAccel 0
transitions back to NORMAL. -/
theorem checkBraking_two_state_spec :
    (∀ (s : AppState) (a : ℚ),
      ((checkBraking s a).1.isBraking = true ↔
        s.speedThreshold < s.currentSpeed ∧ a < s.brakeThreshold) ∧
      ((checkBraking s a).2.alertRequested = true ↔
        s.isBraking = false ∧ s.speedThreshold < s.currentSpeed ∧ a < s.brakeThreshold) ∧
      (checkBraking s a).2.indicatorShown = (checkBraking s a).2.alertRequested ∧
      ((checkBraking s a).2.indicatorHidden = true ↔
        s.isBraking = true ∧ ¬(s.speedThreshold < s.currentSpeed ∧ a < s.brakeThreshold))) ∧
    ((handleMotionUpdate brakeDemo ⟨0, -3, 0, 3, -3⟩).1.isBraking = true ∧
     (handleMotionUpdate brakeDemo ⟨0, -3, 0, 3, -3⟩).2.alertRequested = true ∧
     (handleMotionUpdate brakeDemo ⟨0, -3, 0, 3, -3⟩).2.indicatorShown = true ∧
     (handleMotionUpdate (handleMotionUpdate brakeDemo ⟨0, -3, 0, 3, -3⟩).1
        ⟨0, 0, 0, 0, 0⟩).1.isBraking = false ∧
     (handleMotionUpdate (handleMotionUpdate brakeDemo ⟨0, -3, 0, 3, -3⟩).1
        ⟨0, 0, 0, 0, 0⟩).2.indicatorHidden = true) := by
  constructor
  · intro s a
    unfold checkBraking
    split_ifs with h1 h2 h3 <;> simp_all [BrakeEffects.none]
  · norm_num [handleMotionUpdate, checkBraking, brakeDemo, BrakeEffects.none]

/-- Claim C2: `playBeep` returns false with no change to engine state
(in particular the last-beep timestamp) whenever the engine is not
unlocked or fewer than `debounceMs` milliseconds have elapsed since the
last beep started; consequently, on an unlocked engine whose first call
succeeds, a second call less than `debounceMs` later returns false with
no state change, and a second call at least `debounceMs` later
succeeds. -/
theorem playBeep_debounce_spec :
    (∀ (e : AudioEngine) (now : ℤ),
      (e.isUnlocked = false ∨ now - e.lastBeepTime < e.debounceMs) →
        playBeep e now = (false, e)) ∧
    (∀ (e : AudioEngine) (t1 t2 : ℤ), e.isUnlocked = true →
      (playBeep e t1).1 = true →
        ((t2 - t1 < e.debounceMs →
           playBeep (playBeep e t1).2 t2 = (false, (playBeep e t1).2)) ∧
         (e.debounceMs ≤ t2 - t1 → (playBeep (playBeep e t1).2 t2).1 = true))) := by
  constructor
  · intro e now h
    unfold playBeep
    rcases h with h | h
    · rw [if_pos h]
    · split_ifs <;> simp_all
  · intro e t1 t2 hu h1
    have hd : ¬ (t1 - e.lastBeepTime < e.debounceMs) := by
      intro hd
      unfold playBeep at h1
      rw [hu] at h1
      simp [hd] at h1
    have h2 : (playBeep e t1).2 = { e with lastBeepTime := t1 } := by
      unfold playBeep
      rw [hu]
      simp [hd]
    rw [h2]
    constructor
    · intro hlt
      unfold playBeep
      simp [hu, hlt]
    · intro hge
      have hnd : ¬ (t2 - t1 < e.debounceMs) := by omega
      unfold playBeep
      simp [hu, hnd]

/-- Witness for claim C2's theorem at concrete engine states and times. -/
theorem playBeep_debounce_spec_witness :
    playBeep ⟨false, 0, 1000⟩ 5000 = (false, ⟨false, 0, 1000⟩) ∧
    playBeep (playBeep ⟨true, 0, 1000⟩ 2000).2 2500 =
      (false, (playBeep ⟨true, 0, 1000⟩ 2000).2) ∧
    (playBeep (playBeep ⟨true, 0, 1000⟩ 2000).2 3200).1 = true := by
  refine ⟨?_, ?_, ?_⟩
  · exact playBeep_debounce_spec.1 ⟨false, 0, 1000⟩ 5000 (Or.inl rfl)
  · exact (playBeep_debounce_spec.2 ⟨true, 0, 1000⟩ 2000 2500 rfl (by norm_num [playBeep])).1
      (by norm_num)
  · exact (playBeep_debounce_spec.2 ⟨true, 0, 1000⟩ 2000 3200 rfl (by norm_num [playBeep])).2
      (by norm_num)

/-- Claim C9: the velocity-pointer length as a function of speed equals
`35 + (70 - 35) * min (speed / 30) 1`; it is monotonically
non-decreasing in speed for all speeds ≥ 0 and clamps at 30 m/s, so
`length 0 = 35`, `length 30 = 70` and `length 60 = 70`. -/
theorem arrowLength_spec :
    (∀ speed : ℚ, arrowLength speed = 35 + (70 - 35) * min (speed / 30) 1) ∧
    (∀ s1 s2 : ℚ, 0 ≤ s1 → s1 ≤ s2 → arrowLength s1 ≤ arrowLength s2) ∧
    arrowLength 0 = 35 ∧ arrowLength 30 = 70 ∧ arrowLength 60 = 70 := by
  refine ⟨fun speed => rfl, ?_, ?_, ?_, ?_⟩
  · intro s1 s2 _ h
    unfold arrowLength
    have hm : min (s1/30) 1 ≤ min (s2/30) 1 := min_le_min (by linarith) le_rfl
    linarith
  all_goals norm_num [arrowLength, min_def]

/-- Witness for claim C9's theorem at the concrete speeds 5 and 10. -/
theorem arrowLength_spec_witness :
    (0 : ℚ) ≤ 5 ∧ (5 : ℚ) ≤ 10 ∧ arrowLength 5 ≤ arrowLength 10 :=
  ⟨by norm_num, by norm_num, arrowLength_spec.2.1 5 10 (by norm_num) (by norm_num)⟩

/-- Claim C3: the derived display vectors are pure functions of the
aggregated state — north-pointer rotation is `-azimuth` and
velocity-pointer rotation is `normalize(bearing - azimuth)`, which lies
in [0,360).  Feeding a PositionSample with speed 10 and bearing 90
followed by an OrientationSample with azimuth 90 yields velocity-pointer
rotation 0 and north-pointer rotation −90, from any prior state. -/
theorem display_vectors_spec :
    (∀ s : AppState,
       northRotation s = -s.currentAzimuth ∧
       velocityRotation s = normalizeDeg (s.currentBearing - s.currentAzimuth) ∧
       0 ≤ velocityRotation s ∧ velocityRotation s < 360) ∧
    (∀ (s : AppState) (lat lon acc : ℚ) (ts : ℤ) (b g : ℚ),
       velocityRotation (handleOrientationUpdate
         (handleGpsUpdate s ⟨lat, lon, some 10, some 90, acc, ts⟩)
         ⟨JsFloat.fin 90, b, g⟩) = 0 ∧
       northRotation (handleOrientationUpdate
         (handleGpsUpdate s ⟨lat, lon, some 10, some 90, acc, ts⟩)
         ⟨JsFloat.fin 90, b, g⟩) = -90) := by
  have n90 : normalizeDeg 90 = 90 := by norm_num [normalizeDeg, jsRem, jsTrunc]
  constructor
  · intro s
    exact ⟨rfl, rfl, normalizeDeg_nonneg _, normalizeDeg_lt _⟩
  · intro s lat lon acc ts b g
    norm_num [handleGpsUpdate, handleOrientationUpdate, velocityRotation,
      northRotation, n90, normalizeDeg_zero]

/-- Prior aggregator state used by the bearing-retention counterexample:
its stored bearing is 90. -/
def gpsDemo : AppState :=
  { speedThreshold := 0.5, brakeThreshold := -2, currentSpeed := 3,
    currentBearing := 90, currentAzimuth := 0, currentAcceleration := 0,
    isBraking := false, dispLatitude := 0, dispLongitude := 0, dispBearing := 90 }

/-- Claim C4, counterexample: processing a PositionSample whose bearing
is absent does NOT leave the stored bearing at its prior value — from a
state with stored bearing 90, the handler resets it to 0. -/
theorem gps_bearing_retention_cex :
    ¬ ((handleGpsUpdate gpsDemo ⟨41, 2, some 3, none, 5, 0⟩).currentBearing
        = gpsDemo.currentBearing) := by
  norm_num [handleGpsUpdate, gpsDemo]

/-- Claim C4, amended: for every prior aggregator state and every
incoming PositionSample whose bearing field is absent/null, processing
the sample sets the stored bearing to 0 (it does not retain the prior
value; only the on-screen bearing label keeps its previous text),
substitutes 0 for an absent speed, and updates stored latitude and
longitude unconditionally; no null is propagated into the aggregated
state (the live GPS source likewise substitutes 0 for null speed and
heading at ingestion). -/
theorem gps_update_amended :
    (∀ (s : AppState) (lat lon : ℚ) (sp : Option ℚ) (acc : ℚ) (ts : ℤ),
       (handleGpsUpdate s ⟨lat, lon, sp, none, acc, ts⟩).currentBearing = 0) ∧
    (∀ (s : AppState) (lat lon : ℚ) (br : Option ℚ) (acc : ℚ) (ts : ℤ),
       (handleGpsUpdate s ⟨lat, lon, none, br, acc, ts⟩).currentSpeed = 0) ∧
    (∀ (s : AppState) (d : PositionSample),
       (handleGpsUpdate s d).dispLatitude = d.latitude ∧
       (handleGpsUpdate s d).dispLongitude = d.longitude ∧
       (handleGpsUpdate s d).currentSpeed = d.speed.getD 0 ∧
       (handleGpsUpdate s d).currentBearing = d.bearing.getD 0) ∧
    (∀ (lat lon : ℚ) (sp hd : Option ℚ) (acc : ℚ) (ts : ℤ),
       (buildLivePosition lat lon sp hd acc ts).speed = some (sp.getD 0) ∧
       (buildLivePosition lat lon sp hd acc ts).bearing = some (hd.getD 0)) :=
  ⟨fun _ _ _ _ _ _ => rfl, fun _ _ _ _ _ _ => rfl,
   fun _ _ => ⟨rfl, rfl, rfl, rfl⟩, fun _ _ _ _ _ _ => ⟨rfl, rfl⟩⟩

/-- Claim C5: for every OrientationSample, if its azimuth is non-finite
the handler mutates no state (the whole state, hence both pointer
rotations, is unchanged and the sample is dropped); otherwise the
stored azimuth equals the normalization of the input azimuth, which
lies in [0,360) and is congruent to the input modulo 360. -/
theorem orientation_validation_spec :
    (∀ (s : AppState) (b g : ℚ),
       handleOrientationUpdate s ⟨JsFloat.nonfinite, b, g⟩ = s) ∧
    (∀ (s : AppState) (b g : ℚ),
       northRotation (handleOrientationUpdate s ⟨JsFloat.nonfinite, b, g⟩) =
         northRotation s ∧
       velocityRotation (handleOrientationUpdate s ⟨JsFloat.nonfinite, b, g⟩) =
         velocityRotation s) ∧
    (∀ (s : AppState) (a b g : ℚ),
       (handleOrientationUpdate s ⟨JsFloat.fin a, b, g⟩).currentAzimuth =
         normalizeDeg a) ∧
    (∀ a : ℚ, 0 ≤ normalizeDeg a ∧ normalizeDeg a < 360 ∧
       ∃ k : ℤ, normalizeDeg a = a + 360 * k) :=
  ⟨fun _ _ _ => rfl, fun _ _ _ => ⟨rfl, rfl⟩, fun _ _ _ _ => rfl,
   fun a => ⟨normalizeDeg_nonneg a, normalizeDeg_lt a, normalizeDeg_congr a⟩⟩

/-- Claim C6, counterexample: starting the scenario machine in
`accelerate` with speed 0, after exactly 150 ticks (5 simulated
seconds) the scenario state is still `accelerate`, not `cruise` — the
dwell test `scenarioTime > 5` is strict, so the transition only fires
on tick 151. -/
theorem accelerate_150_ticks_cex :
    (ticks accelStart (List.replicate 150 TickOracle.zero)).scenario ≠
      Scenario.cruise := by
  rw [accel_150.1]
  intro h
  exact Scenario.noConfusion h

/-- Claim C6, amended: starting the scenario machine in `accelerate`
with speed 0, every 30 Hz tick in that state adds 0.5 m/s to the speed
capped at 15 m/s and sets forwardAcceleration to +2.5; after exactly
150 ticks (5 simulated seconds) the state is still `accelerate` with
speed exactly 15, and on tick 151 — the first tick with strictly more
than 5 s elapsed in the state — the scenario state becomes `cruise`
with the speed still exactly 15. -/
theorem accelerate_scenario_amended :
    (∀ (s : SimState) (o : TickOracle), s.scenario = Scenario.accelerate →
       (tick s o).speed = min (s.speed + 0.5) 15 ∧
       (tick s o).acceleration = 2.5) ∧
    ((ticks accelStart (List.replicate 150 TickOracle.zero)).scenario =
       Scenario.accelerate ∧
     (ticks accelStart (List.replicate 150 TickOracle.zero)).speed = 15 ∧
     (ticks accelStart (List.replicate 151 TickOracle.zero)).scenario =
       Scenario.cruise ∧
     (ticks accelStart (List.replicate 151 TickOracle.zero)).speed = 15) := by
  constructor
  · intro s o h
    obtain ⟨t, la, lo, sp, be, az, ac, sc, st⟩ := s
    simp only [] at h
    subst h
    simp only [tick, updateScenario, updatePosition]
    split_ifs <;> simp
  · exact ⟨accel_150.1, accel_150.2, accel_151.1, accel_151.2⟩

/-- Witness for claim C6's amended theorem at the concrete start state. -/
theorem accelerate_scenario_amended_witness :
    accelStart.scenario = Scenario.accelerate ∧
    (tick accelStart TickOracle.zero).speed = min (accelStart.speed + 0.5) 15 ∧
    (tick accelStart TickOracle.zero).acceleration = 2.5 :=
  ⟨rfl, (accelerate_scenario_amended.1 accelStart TickOracle.zero rfl).1,
        (accelerate_scenario_amended.1 accelStart TickOracle.zero rfl).2⟩

/-- Claim C7: after `stop()` on the live sensor source, the GPS watch is
cleared but the `deviceorientation` and `devicemotion` window listeners
remain registered, so orientation and motion samples continue to be
delivered — contradicting the claim (and `stop()`'s own doc comment,
"Stop all sensors").  The synthetic source's `stop()` does cancel its
periodic tick synchronously. -/
theorem stop_leaves_listeners_registered :
    (SensorManager.stop (SensorManager.startMotion (SensorManager.startOrientation
       (SensorManager.startGps SensorManager.init 7)))).orientationListenerActive
      = true ∧
    (SensorManager.stop (SensorManager.startMotion (SensorManager.startOrientation
       (SensorManager.startGps SensorManager.init 7)))).motionListenerActive = true ∧
    (SensorManager.stop (SensorManager.startMotion (SensorManager.startOrientation
       (SensorManager.startGps SensorManager.init 7)))).gpsWatchId = none ∧
    (SimControl.stop (SimControl.start SimControl.init 3)).intervalId = none ∧
    (SimControl.stop (SimControl.start SimControl.init 3)).isRunning = false :=
  ⟨rfl, rfl, rfl, rfl, rfl⟩

/-- Claim C8, counterexample: `bearingToCardinal 44` is "NE", not "N" —
44° is nearer the 45° sector centre, and `Math.round(44/45) = 1`. -/
theorem bearingToCardinal_44_cex : bearingToCardinal 44 ≠ some "N" := by
  have h : bearingToCardinal 44 = some "NE" := by
    norm_num [bearingToCardinal, jsRound]
  rw [h]
  decide

/-- Claim C8, amended: `bearingToCardinal` maps a bearing in degrees to
one of the 8 labels {N,NE,E,SE,S,SW,W,NW} by nearest-45°-sector
rounding, with 360° wrapping back to N; in particular
`bearingToCardinal 0 = "N"`, `bearingToCardinal 44 = "NE"` (not "N" as
originally claimed), `bearingToCardinal 46 = "NE"` and
`bearingToCardinal 360 = "N"`; every bearing in [0,360] is mapped to
one of the 8 labels. -/
theorem bearingToCardinal_amended :
    bearingToCardinal 0 = some "N" ∧
    bearingToCardinal 44 = some "NE" ∧
    bearingToCardinal 46 = some "NE" ∧
    bearingToCardinal 360 = some "N" ∧
    (∀ b : ℚ, 0 ≤ b → b ≤ 360 → ∃ d, bearingToCardinal b = some d ∧
       (d = "N" ∨ d = "NE" ∨ d = "E" ∨ d = "SE" ∨ d = "S" ∨ d = "SW" ∨
        d = "W" ∨ d = "NW")) := by
  refine ⟨?_, ?_, ?_, ?_, ?_⟩
  · norm_num [bearingToCardinal, jsRound]
  · norm_num [bearingToCardinal, jsRound]
  · norm_num [bearingToCardinal, jsRound]
  · have h8 : jsRound ((360 : ℚ)/45) = 8 := by norm_num [jsRound]
    simp [bearingToCardinal, h8]
  · intro b h0 h360
    have hb45 : (0 : ℚ) ≤ b/45 := by positivity
    have hb8 : b/45 ≤ 8 := by linarith
    have hidx0 : 0 ≤ jsRound (b/45) := by
      unfold jsRound
      apply Int.floor_nonneg.mpr
      linarith
    have hidx8 : jsRound (b/45) ≤ 8 := by
      unfold jsRound
      have h9 : b/45 + 1/2 < 9 := by linarith
      have : ⌊b/45 + 1/2⌋ < (9 : ℤ) := Int.floor_lt.mpr (by exact_mod_cast h9)
      omega
    unfold bearingToCardinal
    rw [if_neg (by omega)]
    obtain ⟨i, hi0, hi8, hieq⟩ :
        ∃ i : ℤ, 0 ≤ i ∧ i ≤ 8 ∧ jsRound (b/45) = i := ⟨_, hidx0, hidx8, rfl⟩
    rw [hieq]
    interval_cases i <;> exact ⟨_, rfl, by tauto⟩

/-- Witness for claim C8's amended theorem at the concrete bearing 90. -/
theorem bearingToCardinal_amended_witness :
    (0 : ℚ) ≤ 90 ∧ (90 : ℚ) ≤ 360 ∧
    ∃ d, bearingToCardinal 90 = some d ∧
      (d = "N" ∨ d = "NE" ∨ d = "E" ∨ d = "SE" ∨ d = "S" ∨ d = "SW" ∨
       d = "W" ∨ d = "NW") :=
  ⟨by norm_num, by norm_num,
   bearingToCardinal_amended.2.2.2.2 90 (by norm_num) (by norm_num)⟩

/-- Claim C10: in every state of the synthetic sensor source reachable
from its initial state (speed = 0) by any sequence of ticks — under any
environment oracle — the simulated speed satisfies 0 ≤ speed ≤ 15. -/
theorem simulator_speed_invariant (os : List TickOracle) :
    0 ≤ (ticks SimState.init os).speed ∧ (ticks SimState.init os).speed ≤ 15 :=
  ticks_speed_bounds os SimState.init (by norm_num [SimState.init])
    (by norm_num [SimState.init])
